import Mathlib

/-!
Verification of the `analyze_and_clean_excel_file` pipeline
(src/analyze_and_clean_excel.py) against its natural-language
specification.

The pandas DataFrame is embedded as a `Table`: an ordered list of named,
dtype-tagged columns, each holding a list of values (`Value.null` models
NaN/NaT).  Each stage of the source function is embedded as a Lean
function on `Table`; the calls into matplotlib/seaborn are modelled as an
ordered list of `PlotCall` requests.  The rendering of a pandas Series as
a string (`str(series)`) is abstracted to its content: one line per
entry, `name ++ "    " ++ count`.
-/

namespace ExcelClean

/-- A calendar date (the payload of a `datetime64` cell). -/
structure Date where
  year : Nat
  month : Nat
  day : Nat
deriving DecidableEq, Repr

/-- A cell value.  `null` models pandas NaN/NaT/None. -/
inductive Value where
  | null
  | text (s : String)
  | int (n : Int)
  | float (q : Rat)
  | date (d : Date)
  | bool (b : Bool)
deriving DecidableEq, Repr

/-- The inferred dtype tag of a column (pandas: object, int64, float64,
datetime64, bool). -/
inductive Dtype where
  | text
  | int
  | float
  | date
  | bool
deriving DecidableEq, Repr

/-- One named column of a DataFrame. -/
structure Column where
  name : String
  dtype : Dtype
  vals : List Value
deriving DecidableEq, Repr

/-- A DataFrame: ordered named columns of equal length. -/
abbrev Table := List Column

/-- Does a value fit a column's dtype (null fits every dtype)? -/
def fitsDtype : Value → Dtype → Bool
  | .null, _ => true
  | .text _, .text => true
  | .int _, .int => true
  | .float _, .float => true
  | .date _, .date => true
  | .bool _, .bool => true
  | _, _ => false

/-- Well-formed column: every value fits the dtype tag. -/
def Column.wf (c : Column) : Prop :=
  ∀ v ∈ c.vals, fitsDtype v c.dtype = true

/-! ### Stage 1: column-name formatting (lines 34-46) -/

/-- The default `exceptions` argument of the source function. -/
def defaultExceptions : List (String × String) := [("EXAMPLEID", "example_id")]

/-- `re.sub('(?<!^)(?=[A-Z][a-z])', '_', s)` on the tail positions: insert
`_` before every character that is uppercase and immediately followed by a
lowercase character. -/
def camelSubTail : List Char → List Char
  | [] => []
  | [c] => [c]
  | c1 :: c2 :: rest =>
    if c1.isUpper && c2.isLower then '_' :: c1 :: camelSubTail (c2 :: rest)
    else c1 :: camelSubTail (c2 :: rest)

/-- `re.sub('(?<!^)(?=[A-Z][a-z])', '_', s)`: the `(?<!^)` lookbehind
exempts position 0. -/
def camelSub : List Char → List Char
  | [] => []
  | c :: rest => c :: camelSubTail rest

/-- Line 39: `re.sub('(?<!^)(?=[A-Z][a-z])', '_', col).lower().replace(" ", "_")`. -/
def normalizeName (s : String) : String :=
  String.mk (((camelSub s.data).map Char.toLower).map fun c =>
    if c = ' ' then '_' else c)

/-- Line 37: `[e[1] for e in exceptions if e[0] == col][0]` — the target of
the first rule whose source matches, if any. -/
def firstMatch (exceptions : List (String × String)) (col : String) :
    Option String :=
  match exceptions.filter (fun e => e.1 = col) with
  | [] => none
  | e :: _ => some e.2

/-- Lines 35-40: one column name through the first pass. -/
def formatName (exceptions : List (String × String)) (col : String) : String :=
  match firstMatch exceptions col with
  | some t => t
  | none => normalizeName col

/-- Lines 43-46: `df.rename(columns={old_col: new_col})` guarded by
`old_col in df.columns`. -/
def applyException (cols : Table) (e : String × String) : Table :=
  if e.1 ∈ cols.map Column.name then
    cols.map fun c => if c.name = e.1 then { c with name := e.2 } else c
  else cols

/-- Lines 34-46: the whole column-name formatting stage. -/
def formatColumns (exceptions : List (String × String)) (t : Table) : Table :=
  let t1 := t.map fun c => { c with name := formatName exceptions c.name }
  exceptions.foldl applyException t1

/-! ### Stage 2: quality checks (lines 48-65) -/

def isNull : Value → Bool
  | .null => true
  | _ => false

/-- `df[col].isnull().sum()` for one column. -/
def nullCount (c : Column) : Nat := c.vals.countP isNull

/-- `df.isnull().sum()`: the per-column null-count series. -/
def missingSeries (t : Table) : List (String × Nat) :=
  t.map fun c => (c.name, nullCount c)

/-- `df.isnull().sum().sum()`. -/
def totalMissing (t : Table) : Nat :=
  (missingSeries t).foldl (fun a p => a + p.2) 0

/-- `missing_values[missing_values > 0]`. -/
def missingFiltered (t : Table) : List (String × Nat) :=
  (missingSeries t).filter fun p => 0 < p.2

/-- Content of `str(series)` for a name/count series: one line per entry. -/
def renderSeries (l : List (String × Nat)) : String :=
  String.intercalate "\n" (l.map fun p => p.1 ++ "    " ++ toString p.2)

/-- Lines 49-54: the missing-values warning. -/
def missingValuesWarning (t : Table) : Option String :=
  if 0 < totalMissing t then
    some ("Warning: the following columns have missing values:\n" ++
      renderSeries (missingFiltered t))
  else none

/-- Row `i` of the table (one value per column, in column order). -/
def Table.row (t : Table) (i : Nat) : List Value :=
  t.map fun c => c.vals.getD i .null

/-- Number of rows (all columns have equal length in a well-formed table). -/
def numRows (t : Table) : Nat :=
  match t with
  | [] => 0
  | c :: _ => c.vals.length

/-- The rows of the table, in order. -/
def Table.rows (t : Table) : List (List Value) :=
  (List.range (numRows t)).map t.row

/-- `df.duplicated()` (keep='first'): scan rows front to back, flagging a
row iff an equal row was already seen. -/
def dupFlags : List (List Value) → List (List Value) → List Bool
  | _, [] => []
  | seen, r :: rest => decide (r ∈ seen) :: dupFlags (r :: seen) rest

/-- Line 57: `df.duplicated().sum()`. -/
def dupCount (t : Table) : Nat := (dupFlags [] t.rows).count true

/-- Lines 58-61: the duplicates warning. -/
def duplicatesWarning (t : Table) : Option String :=
  if 0 < dupCount t then
    some ("Warning: there are " ++ toString (dupCount t) ++
      " duplicate rows in the dataset.")
  else none

/-- The pandas name of each dtype, as printed by `df.dtypes`. -/
def dtypeName : Dtype → String
  | .text => "object"
  | .int => "int64"
  | .float => "float64"
  | .date => "datetime64[ns]"
  | .bool => "bool"

/-- Lines 64-65: `'Data types:\n' + str(df.dtypes)` (series rendering
abstracted to its content). -/
def dataTypes (t : Table) : String :=
  "Data types:\n" ++
    String.intercalate "\n" (t.map fun c => c.name ++ "    " ++ dtypeName c.dtype)

/-! ### Stage 3: rstrip on string columns (lines 67-69) -/

/-- Python `str.isspace` characters relevant to `str.rstrip`. -/
def pyIsSpace (c : Char) : Bool :=
  c = ' ' || c = '\t' || c = '\n' || c = '\r' || c = '\x0b' || c = '\x0c'

/-- Python `s.rstrip()`: drop the maximal whitespace suffix. -/
def rstripStr (s : String) : String :=
  String.mk ((s.data.reverse.dropWhile pyIsSpace).reverse)

/-- `Series.str.rstrip()` elementwise: strings are right-stripped, NaN
stays NaN, and a non-string element of an object column becomes NaN. -/
def sanitizeValue : Value → Value
  | .text s => .text (rstripStr s)
  | .null => .null
  | _ => .null

/-- Lines 68-69 for one column: only `object` (text) columns are touched. -/
def sanitizeColumn (c : Column) : Column :=
  if c.dtype = Dtype.text then { c with vals := c.vals.map sanitizeValue } else c

/-- Lines 67-69: apply rstrip to the string columns of the table. -/
def sanitizeTable (t : Table) : Table := t.map sanitizeColumn

/-! ### Stage 4: date formatting (lines 71-74) -/

/-- Zero-pad a natural number to `w` digits. -/
def padNum (w : Nat) (n : Nat) : String :=
  let s := toString n
  String.mk (List.replicate (w - s.length) '0') ++ s

/-- `strftime('%m/%d/%Y')` for one date. -/
def formatDate (d : Date) : String :=
  padNum 2 d.month ++ "/" ++ padNum 2 d.day ++ "/" ++ padNum 4 d.year

/-- `Series.dt.strftime` elementwise: dates become text, NaT stays null. -/
def formatDateValue : Value → Value
  | .date d => .text (formatDate d)
  | .null => .null
  | v => v

/-- Lines 72-74 for one column: only datetime columns are rewritten; the
column's dtype becomes `object` (text). -/
def formatDateColumn (c : Column) : Column :=
  if c.dtype = Dtype.date then
    { name := c.name, dtype := Dtype.text, vals := c.vals.map formatDateValue }
  else c

/-- Lines 71-74: format every date column of the table. -/
def formatDatesTable (t : Table) : Table := t.map formatDateColumn

/-! ### Stage 5: outlier / distribution analysis (lines 76-103) -/

/-- `df.select_dtypes(include=[int, float])` membership test. -/
def isNumericDtype : Dtype → Bool
  | .int => true
  | .float => true
  | _ => false

/-- Line 77: the numeric columns, in table order. -/
def numericColumns (t : Table) : Table :=
  t.filter fun c => isNumericDtype c.dtype

/-- `len(df[col].unique())`: distinct values including NaN. -/
def distinctCount (c : Column) : Nat := c.vals.dedup.length

/-- Line 81: numeric columns with strictly more than 10 distinct values.
When there is no numeric column at all the guard on line 79 skips the
filter, but the unfiltered list is empty then too, so this equals the
list bound to `numerical_columns` after line 81 in every case. -/
def selectedColumns (t : Table) : Table :=
  (numericColumns t).filter fun c => 10 < distinctCount c

/-- One rendering request issued to matplotlib/seaborn. -/
inductive PlotCall where
  | boxPlot (cols : List String) (title : String)
  | distPlot (col : String) (title : String)
deriving DecidableEq, Repr

/-- Line 82: the box-plot title string built inside the `if` branch. -/
def boxTitleString (t : Table) : String :=
  "Box plot of data values for " ++
    String.intercalate ", " ((selectedColumns t).map Column.name)

/-- Lines 79-87: `box_plot_title` (None only when there is no numeric
column at all; the `>10 distinct` filter runs after the guard). -/
def boxPlotTitle (t : Table) : Option String :=
  if numericColumns t = [] then none else some (boxTitleString t)

/-- Lines 83-85: the box-plot rendering request (issued whenever the
unfiltered numeric-column list is non-empty). -/
def boxPlotCalls (t : Table) : List PlotCall :=
  if numericColumns t = [] then []
  else [.boxPlot ((selectedColumns t).map Column.name) (boxTitleString t)]

/-- Lines 90-97: `dist_plots_title` (the guard reads the filtered list). -/
def distPlotsTitle (t : Table) : Option String :=
  if selectedColumns t = [] then none
  else some "Distribution plots for numerical columns"

/-- Lines 92-95: one distribution-plot request per selected column, in
selection order. -/
def distPlotCalls (t : Table) : List PlotCall :=
  (selectedColumns t).map fun c =>
    .distPlot c.name ("Distribution of " ++ c.name)

/-- The numeric payload of a cell (`none` for NaN, which `describe`
skips). -/
def numericVal : Value → Option Rat
  | .int n => some (n : Rat)
  | .float q => some q
  | _ => none

/-- The non-null numeric values of a column. -/
def colNumbers (c : Column) : List Rat := c.vals.filterMap numericVal

/-- Insertion into a sorted list of rationals. -/
def insertSorted (x : Rat) : List Rat → List Rat
  | [] => [x]
  | y :: ys => if x ≤ y then x :: y :: ys else y :: insertSorted x ys

/-- Sort a list of rationals ascending (insertion sort). -/
def sortRats (l : List Rat) : List Rat := l.foldr insertSorted []

/-- Linear-interpolation quantile on an ascending list, as pandas
`describe` computes percentiles: at rank `p * (n - 1)`. -/
def quantile (xs : List Rat) (p : Rat) : Rat :=
  let h : Rat := p * ((xs.length : Rat) - 1)
  let i : Nat := h.floor.toNat
  let xi := xs.getD i 0
  let xi1 := xs.getD (i + 1) xi
  xi + (h - (i : Rat)) * (xi1 - xi)

/-- One column's row of `DataFrame.describe()`.  The standard deviation
is irrational in general, so it is carried as its square `stdSq` (the
sample variance, Bessel-corrected, of which the reported std is the
square root). -/
structure DescribeStats where
  count : Nat
  mean : Option Rat
  stdSq : Option Rat
  min : Option Rat
  q25 : Option Rat
  q50 : Option Rat
  q75 : Option Rat
  max : Option Rat
deriving DecidableEq, Repr

/-- `df[col].describe()` over the non-null values of one column. -/
def describeCol (c : Column) : DescribeStats :=
  let xs := colNumbers c
  let n := xs.length
  if n = 0 then ⟨0, none, none, none, none, none, none, none⟩
  else
    let sorted := sortRats xs
    let m : Rat := (xs.foldl (· + ·) 0) / (n : Rat)
    let v : Option Rat :=
      if n ≤ 1 then none
      else some ((xs.foldl (fun a x => a + (x - m) ^ 2) 0) / ((n : Rat) - 1))
    ⟨n, some m, v, some (sorted.getD 0 0), some (quantile sorted (1 / 4)),
      some (quantile sorted (1 / 2)), some (quantile sorted (3 / 4)),
      some (sorted.getD (n - 1) 0)⟩

/-- Lines 100-103: `df[numerical_columns].describe()` keyed by column
name, or None when the selection is empty. -/
def dfSummary (t : Table) : Option (List (String × DescribeStats)) :=
  if selectedColumns t = [] then none
  else some ((selectedColumns t).map fun c => (c.name, describeCol c))

/-! ### Stage 6: the report and the whole pipeline (lines 106-115) -/

/-- The `results` dictionary (lines 106-113). -/
structure Report where
  missing_values_warning : Option String
  duplicates_warning : Option String
  data_types : String
  box_plot_title : Option String
  dist_plots_title : Option String
  dataframe_summary : Option (List (String × DescribeStats))
deriving DecidableEq, Repr

/-- The cleaned table: stages 1, 3 and 4 applied in source order. -/
def cleanTable (exceptions : List (String × String)) (t : Table) : Table :=
  formatDatesTable (sanitizeTable (formatColumns exceptions t))

/-- The whole function (lines 31-115), with the Excel read abstracted to
the input `Table` and plotting abstracted to the returned `PlotCall`
list.  The quality checks run on the renamed table, before rstrip and
date formatting; the plots and the summary run on the cleaned table. -/
def analyze_and_clean_excel_file (exceptions : List (String × String))
    (df0 : Table) : Table × Report × List PlotCall :=
  let df1 := formatColumns exceptions df0
  let df3 := formatDatesTable (sanitizeTable df1)
  ( df3,
    { missing_values_warning := missingValuesWarning df1
      duplicates_warning := duplicatesWarning df1
      data_types := dataTypes df1
      box_plot_title := boxPlotTitle df3
      dist_plots_title := distPlotsTitle df3
      dataframe_summary := dfSummary df3 },
    boxPlotCalls df3 ++ distPlotCalls df3 )

/-! ### Concrete tables used in the claims -/

/-- One numeric column whose values have only 2 distinct values. -/
def c1Table : Table := [⟨"x", Dtype.int, [.int 0, .int 1, .int 0]⟩]

/-- A text column holding `" abc  "` next to an untouched numeric column. -/
def c2Table : Table :=
  [⟨"s", Dtype.text, [.text " abc  "]⟩, ⟨"n", Dtype.int, [.int 5]⟩]

/-- A numeric flag column with values drawn only from 0 and 1. -/
def c5flag : Column := ⟨"flag", Dtype.int, [.int 0, .int 1, .int 0, .int 1]⟩

/-- A numeric column with the 11 distinct values 1..11. -/
def c5big : Column :=
  ⟨"big", Dtype.int, (List.range 11).map fun i => .int ((i : Int) + 1)⟩

/-- 3 rows, column a with one null, column b with none. -/
def c6Table : Table :=
  [⟨"a", Dtype.float, [.null, .float 1, .float 2]⟩,
   ⟨"b", Dtype.int, [.int 1, .int 2, .int 3]⟩]

/-- Two fully identical rows. -/
def c7Table : Table :=
  [⟨"a", Dtype.int, [.int 1, .int 1]⟩, ⟨"b", Dtype.text, [.text "x", .text "x"]⟩]

/-! ### C1 -/

/-- C1 as stated is false: with a numeric column present but the `>10
distinct` selection empty, the box-plot title is the bare prefix string
(not null) and a box-plot rendering request is still issued, because the
source filters `numerical_columns` only after testing the unfiltered list
on line 79. -/
theorem C1_counterexample :
    selectedColumns (cleanTable defaultExceptions c1Table) = [] ∧
    (analyze_and_clean_excel_file defaultExceptions c1Table).2.1.box_plot_title =
      some "Box plot of data values for " ∧
    (analyze_and_clean_excel_file defaultExceptions c1Table).2.2 =
      [PlotCall.boxPlot [] "Box plot of data values for "] :=
  ⟨rfl, rfl, rfl⟩

/-- C1 amended: when the outlier selection is empty, the
distribution-plot title and the statistics table are null; if moreover
the table has no numeric column at all, the box-plot title is null and no
rendering request is issued; but if a numeric column exists, the box-plot
title is the bare prefix and exactly one box-plot request (over no
columns) is issued. -/
theorem C1_amended (rules : List (String × String)) (t : Table)
    (h : selectedColumns (cleanTable rules t) = []) :
    (analyze_and_clean_excel_file rules t).2.1.dist_plots_title = none ∧
    (analyze_and_clean_excel_file rules t).2.1.dataframe_summary = none ∧
    (numericColumns (cleanTable rules t) = [] →
      (analyze_and_clean_excel_file rules t).2.1.box_plot_title = none ∧
      (analyze_and_clean_excel_file rules t).2.2 = []) ∧
    (numericColumns (cleanTable rules t) ≠ [] →
      (analyze_and_clean_excel_file rules t).2.1.box_plot_title =
        some "Box plot of data values for " ∧
      (analyze_and_clean_excel_file rules t).2.2 =
        [PlotCall.boxPlot [] "Box plot of data values for "]) := by
  have hd : formatDatesTable (sanitizeTable (formatColumns rules t)) =
      cleanTable rules t := rfl
  have hti : boxTitleString (cleanTable rules t) = "Box plot of data values for " := by
    rw [boxTitleString, h]
    rw [show String.intercalate ", " (List.map Column.name []) = "" from rfl,
      String.append_empty]
  refine ⟨?_, ?_, fun hn => ⟨?_, ?_⟩, fun hn => ⟨?_, ?_⟩⟩ <;>
    simp [analyze_and_clean_excel_file, hd, distPlotsTitle, dfSummary,
      boxPlotTitle, boxPlotCalls, distPlotCalls, h, hti, *]

/-- Instantiation of `C1_amended` at the empty table. -/
theorem C1_witness :
    (analyze_and_clean_excel_file defaultExceptions ([] : Table)).2.1.dist_plots_title
        = none ∧
    (analyze_and_clean_excel_file defaultExceptions ([] : Table)).2.1.dataframe_summary
        = none ∧
    (analyze_and_clean_excel_file defaultExceptions ([] : Table)).2.2 = [] := by
  have h := C1_amended defaultExceptions ([] : Table) rfl
  exact ⟨h.1, h.2.1, (h.2.2.1 rfl).2⟩

/-! ### C2 -/

/-- C2 as stated is false: sanitization uses `rstrip`, so `" abc  "`
becomes `" abc"` (leading whitespace kept), not `"abc"`. -/
theorem C2_counterexample :
    sanitizeTable c2Table =
      [⟨"s", Dtype.text, [.text " abc"]⟩, ⟨"n", Dtype.int, [.int 5]⟩] ∧
    Value.text " abc" ≠ Value.text "abc" :=
  ⟨rfl, by decide⟩

/-- C2 amended: after sanitization the value `" abc  "` equals `" abc"`
(trailing whitespace removed, leading kept), and every non-text column is
unchanged by sanitization. -/
theorem C2_amended :
    sanitizeTable c2Table =
      [⟨"s", Dtype.text, [.text " abc"]⟩, ⟨"n", Dtype.int, [.int 5]⟩] ∧
    ∀ c : Column, c.dtype ≠ Dtype.text → sanitizeColumn c = c := by
  refine ⟨rfl, fun c hc => ?_⟩
  simp [sanitizeColumn, hc]

/-- Instantiation of `C2_amended` at a numeric column. -/
theorem C2_witness :
    sanitizeColumn ⟨"n", Dtype.int, [Value.int 5]⟩ =
      ⟨"n", Dtype.int, [Value.int 5]⟩ :=
  C2_amended.2 _ (by decide)

/-! ### C3 -/

/-- The head of `dropWhile p l` never satisfies `p`. -/
lemma head_dropWhile_not {α : Type} (p : α → Bool) (l : List α) :
    ∀ a, (l.dropWhile p).head? = some a → p a = false := by
  induction l with
  | nil => intro a h; simp [List.dropWhile] at h
  | cons x xs ih =>
    intro a h
    rw [List.dropWhile_cons] at h
    by_cases hp : p x
    · rw [if_pos hp] at h; exact ih a h
    · rw [if_neg hp] at h
      simp only [List.head?_cons, Option.some.injEq] at h
      rw [← h]
      exact Bool.not_eq_true _ ▸ hp

/-- `rstripStr` removes exactly the (maximal) whitespace suffix: the
result is a verbatim prefix of the input, everything dropped is
whitespace, and the result does not end in whitespace. -/
lemma rstrip_spec (s : String) :
    ∃ w : List Char,
      s.data = (rstripStr s).data ++ w ∧
      (∀ ch ∈ w, pyIsSpace ch = true) ∧
      ∀ ch, (rstripStr s).data.getLast? = some ch → pyIsSpace ch = false := by
  refine ⟨(s.data.reverse.takeWhile pyIsSpace).reverse, ?_, ?_, ?_⟩
  · have h := List.takeWhile_append_dropWhile pyIsSpace s.data.reverse
    have h2 := congrArg List.reverse h
    rw [List.reverse_append, List.reverse_reverse] at h2
    exact h2.symm
  · intro ch hch
    rw [List.mem_reverse] at hch
    exact List.mem_takeWhile_imp hch
  · intro ch hch
    rw [show (rstripStr s).data = (s.data.reverse.dropWhile pyIsSpace).reverse
        from rfl, List.getLast?_reverse] at hch
    exact head_dropWhile_not pyIsSpace s.data.reverse ch hch

/-- C3: sanitization right-strips every value of every text column (null
values staying null), leaves non-text columns untouched, and the
right-strip removes exactly the trailing whitespace, keeping any leading
whitespace as a verbatim prefix of the input. -/
theorem C3 (c : Column) :
    (c.dtype ≠ Dtype.text → sanitizeColumn c = c) ∧
    (c.dtype = Dtype.text → (sanitizeColumn c).name = c.name ∧
      (sanitizeColumn c).dtype = Dtype.text ∧
      (sanitizeColumn c).vals = c.vals.map sanitizeValue) ∧
    sanitizeValue Value.null = Value.null ∧
    (∀ s : String, sanitizeValue (Value.text s) = Value.text (rstripStr s)) ∧
    ∀ s : String, ∃ w : List Char,
      s.data = (rstripStr s).data ++ w ∧
      (∀ ch ∈ w, pyIsSpace ch = true) ∧
      ∀ ch, (rstripStr s).data.getLast? = some ch → pyIsSpace ch = false := by
  refine ⟨fun hc => ?_, fun hc => ?_, rfl, fun s => rfl, rstrip_spec⟩
  · simp [sanitizeColumn, hc]
  · refine ⟨?_, ?_, ?_⟩ <;> simp [sanitizeColumn, hc]

/-- Instantiation of `C3` at an integer column. -/
theorem C3_witness :
    sanitizeColumn ⟨"k", Dtype.int, [Value.int 1]⟩ =
      ⟨"k", Dtype.int, [Value.int 1]⟩ :=
  (C3 _).1 (by decide)

/-! ### C4 -/

/-- The first pass picks the target of the first matching rule. -/
lemma formatName_first (rules : List (String × String)) (nm : String)
    (r : String × String)
    (h : rules.find? (fun e => e.1 = nm) = some r) :
    formatName rules nm = r.2 := by
  induction rules with
  | nil => simp at h
  | cons e es ih =>
    rw [List.find?_cons] at h
    by_cases hp : e.1 = nm
    · simp only [hp, decide_True] at h
      cases h
      simp [formatName, firstMatch, List.filter_cons, hp]
    · simp only [hp, decide_False] at h
      have := ih h
      simpa [formatName, firstMatch, List.filter_cons, hp] using this

/-- C4: the default rule sends the literal column `EXAMPLEID` to
`example_id` verbatim while the unmatched `UserId` is normalized to
`user_id`; and in general a column name matching some rule's source gets
the target of the first matching rule. -/
theorem C4 :
    formatColumns defaultExceptions
        [⟨"EXAMPLEID", Dtype.text, []⟩, ⟨"UserId", Dtype.int, []⟩] =
      [⟨"example_id", Dtype.text, []⟩, ⟨"user_id", Dtype.int, []⟩] ∧
    normalizeName "UserId" = "user_id" ∧
    ∀ (rules : List (String × String)) (nm : String) (r : String × String),
      rules.find? (fun e => e.1 = nm) = some r → formatName rules nm = r.2 :=
  ⟨rfl, rfl, formatName_first⟩

/-- Instantiation of `C4` at a rule list with two rules for the same
source name: the first one wins. -/
theorem C4_witness :
    formatName [("A", "B"), ("A", "C")] "A" = "B" :=
  C4.2.2 [("A", "B"), ("A", "C")] "A" ("A", "B") rfl

/-! ### C5 -/

lemma isNumericDtype_iff (d : Dtype) :
    isNumericDtype d = true ↔ d = Dtype.int ∨ d = Dtype.float := by
  cases d <;> simp [isNumericDtype]

lemma colNumbers_c5big :
    colNumbers c5big = [(1 : Rat), 2, 3, 4, 5, 6, 7, 8, 9, 10, 11] := by
  simp [c5big, colNumbers, numericVal, List.range_succ]

lemma sort_c5big :
    sortRats [(1 : Rat), 2, 3, 4, 5, 6, 7, 8, 9, 10, 11] =
      [(1 : Rat), 2, 3, 4, 5, 6, 7, 8, 9, 10, 11] := by
  norm_num [sortRats, insertSorted]

lemma describe_c5big :
    describeCol c5big = ⟨11, some 6, some 11, some 1, some (7 / 2), some 6,
      some (17 / 2), some 11⟩ := by
  have hf1 : ((5 / 2 : Rat)).floor.toNat = 2 := by
    rw [show ((5 / 2 : Rat)).floor = ⌊(5 / 2 : Rat)⌋ from rfl]
    norm_num
    decide
  have hf2 : (Rat.floor 5).toNat = 5 := by
    rw [show Rat.floor 5 = ⌊(5 : Rat)⌋ from rfl]
    norm_num
    decide
  have hf3 : ((15 / 2 : Rat)).floor.toNat = 7 := by
    rw [show ((15 / 2 : Rat)).floor = ⌊(15 / 2 : Rat)⌋ from rfl]
    norm_num
    decide
  rw [describeCol, colNumbers_c5big]
  norm_num [sort_c5big, quantile, List.getD, hf1, hf2, hf3]

lemma selected_c5 : selectedColumns [c5flag, c5big] = [c5big] := by decide

/-- C5: the outlier selection holds exactly the numeric columns with
strictly more than 10 distinct values; the statistics table (when
present) is keyed by exactly those columns, one `describe` row each;
concretely a 0/1-valued column is excluded, a column with the 11 distinct
values 1..11 is included, and its statistics are
count 11, mean 6, std² 11, min 1, quartiles 7/2, 6, 17/2, max 11. -/
theorem C5 (t : Table) :
    (∀ nm : String, nm ∈ (selectedColumns t).map Column.name ↔
      ∃ c, c ∈ t ∧ c.name = nm ∧ (c.dtype = Dtype.int ∨ c.dtype = Dtype.float) ∧
        10 < c.vals.dedup.length) ∧
    (selectedColumns t = [] → dfSummary t = none) ∧
    (selectedColumns t ≠ [] →
      dfSummary t = some ((selectedColumns t).map fun c => (c.name, describeCol c))) ∧
    selectedColumns [c5flag, c5big] = [c5big] ∧
    dfSummary [c5flag, c5big] = some [("big", describeCol c5big)] ∧
    describeCol c5big = ⟨11, some 6, some 11, some 1, some (7 / 2), some 6,
      some (17 / 2), some 11⟩ := by
  refine ⟨fun nm => ?_, fun h => ?_, fun h => ?_, selected_c5,
    by rw [dfSummary, selected_c5]; simp [c5big], describe_c5big⟩
  · simp only [selectedColumns, numericColumns, List.mem_map, List.mem_filter,
      isNumericDtype_iff, distinctCount, decide_eq_true_eq]
    constructor
    · rintro ⟨c, ⟨⟨hc, hnum⟩, hcard⟩, hname⟩
      exact ⟨c, hc, hname, hnum, hcard⟩
    · rintro ⟨c, hc, hname, hnum, hcard⟩
      exact ⟨c, ⟨⟨hc, hnum⟩, hcard⟩, hname⟩
  · simp [dfSummary, h]
  · simp [dfSummary, h]

/-- Instantiation of `C5` at the two concrete columns. -/
theorem C5_witness :
    dfSummary ([] : Table) = none := (C5 []).2.1 rfl

/-! ### C6 -/

lemma foldl_add_snd (l : List (String × Nat)) (n : Nat) :
    l.foldl (fun a p => a + p.2) n = n + (l.map Prod.snd).sum := by
  induction l generalizing n with
  | nil => simp
  | cons p ps ih => simp [List.foldl_cons, ih, Nat.add_assoc]

lemma totalMissing_eq (t : Table) :
    totalMissing t = (t.map nullCount).sum := by
  rw [totalMissing, foldl_add_snd, Nat.zero_add, missingSeries, List.map_map]
  rfl

/-- C6: the missing-value warning exists iff the total null count is
nonzero; its filtered series mentions exactly the columns with a nonzero
null count, with their counts; and in a 3-row table where column a has
one null and column b none, the series is `[("a", 1)]`. -/
theorem C6 (t : Table) :
    ((missingValuesWarning t).isSome ↔ 0 < totalMissing t) ∧
    totalMissing t = (t.map nullCount).sum ∧
    (∀ (nm : String) (cnt : Nat), (nm, cnt) ∈ missingFiltered t ↔
      ∃ c, c ∈ t ∧ c.name = nm ∧ nullCount c = cnt ∧ 0 < cnt) ∧
    (∀ s, missingValuesWarning t = some s →
      s = "Warning: the following columns have missing values:\n" ++
        renderSeries (missingFiltered t)) ∧
    missingFiltered c6Table = [("a", 1)] ∧
    missingValuesWarning c6Table =
      some ("Warning: the following columns have missing values:\na    1") := by
  refine ⟨?_, totalMissing_eq t, fun nm cnt => ?_, fun s hs => ?_, rfl, rfl⟩
  · rw [missingValuesWarning]
    split <;> simp_all
  · simp only [missingFiltered, missingSeries, List.mem_filter, List.mem_map,
      decide_eq_true_eq]
    constructor
    · rintro ⟨⟨c, hc, heq⟩, hpos⟩
      cases hEq : heq
      exact ⟨c, hc, rfl, rfl, hpos⟩
    · rintro ⟨c, hc, rfl, rfl, hpos⟩
      exact ⟨⟨c, hc, rfl⟩, hpos⟩
  · rw [missingValuesWarning] at hs
    split at hs
    · cases hs; rfl
    · cases hs

/-- Instantiation of `C6` at the concrete 3-row table. -/
theorem C6_witness : (missingValuesWarning c6Table).isSome :=
  (C6 c6Table).1.mpr (by decide)

/-! ### C7 -/

/-- Pointwise reading of the duplicate flags: position `i` is flagged iff
the row equals a member of the initial `seen` set or an earlier row. -/
lemma dupFlags_get? (seen l : List (List Value)) (i : Nat) :
    (dupFlags seen l).get? i =
      (l.get? i).map fun v => decide (v ∈ seen ∨ ∃ j, j < i ∧ l.get? j = some v) := by
  induction l generalizing seen i with
  | nil => simp [dupFlags]
  | cons r rest ih =>
    cases i with
    | zero =>
      simp only [dupFlags, List.get?_cons_zero, Option.map_some]
      congr 1
      rw [decide_eq_decide]
      simp
    | succ i =>
      simp only [dupFlags, List.get?_cons_succ]
      rw [ih]
      cases hv : rest.get? i with
      | none => rfl
      | some v =>
        simp only [Option.map_some']
        congr 1
        rw [decide_eq_decide]
        constructor
        · rintro (hmem | ⟨j, hj, hget⟩)
          · rcases List.mem_cons.mp hmem with h | h
            · exact Or.inr ⟨0, Nat.succ_pos _, by simp [h]⟩
            · exact Or.inl h
          · exact Or.inr ⟨j + 1, Nat.succ_lt_succ hj, by simpa using hget⟩
        · rintro (hmem | ⟨j, hj, hget⟩)
          · exact Or.inl (List.mem_cons_of_mem _ hmem)
          · cases j with
            | zero =>
              simp only [List.get?_cons_zero, Option.some.injEq] at hget
              exact Or.inl (hget ▸ List.mem_cons_self _ _)
            | succ j =>
              rw [List.get?_cons_succ] at hget
              exact Or.inr ⟨j, Nat.lt_of_succ_lt_succ hj, hget⟩

/-- The duplicate flags are exactly the earlier-equal-row indicators. -/
lemma dupFlags_eq (rows : List (List Value)) :
    dupFlags [] rows = (List.range rows.length).map fun i =>
      decide (∃ j, j < i ∧ rows.get? j = rows.get? i) := by
  apply List.ext_get?
  intro n
  by_cases h : n < rows.length
  · rw [List.get?_map, List.get?_range h, dupFlags_get?]
    cases hv : rows.get? n with
    | none => exact absurd (List.get?_eq_none.mp hv) (Nat.not_le.mpr h)
    | some v =>
      simp only [Option.map_some']
      congr 1
      rw [decide_eq_decide, hv]
      simp
  · have h1 : rows.get? n = none := List.get?_eq_none.mpr (Nat.le_of_not_lt h)
    have h2 : (List.range rows.length).get? n = none :=
      List.get?_eq_none.mpr (by simpa using Nat.le_of_not_lt h)
    rw [List.get?_map, dupFlags_get?, h1, h2]
    rfl

/-- `df.duplicated().sum()` counts exactly the indices whose row equals
an earlier row. -/
lemma dupCount_eq (t : Table) :
    dupCount t = ((List.range t.rows.length).filter fun i =>
      decide (∃ j, j < i ∧ t.rows.get? j = t.rows.get? i)).length := by
  rw [dupCount, dupFlags_eq, List.count_eq_countP, List.countP_map,
    ← List.countP_eq_length_filter]
  congr 1
  funext i
  simp

/-- C7: the duplicate count is exactly the number of rows equal to an
earlier row; the warning exists iff that count is positive and contains
the count; two fully identical rows give count 1. -/
theorem C7 (t : Table) :
    dupCount t = ((List.range t.rows.length).filter fun i =>
      decide (∃ j, j < i ∧ t.rows.get? j = t.rows.get? i)).length ∧
    ((duplicatesWarning t).isSome ↔ 0 < dupCount t) ∧
    (∀ s, duplicatesWarning t = some s →
      s = "Warning: there are " ++ toString (dupCount t) ++
        " duplicate rows in the dataset.") ∧
    dupCount c7Table = 1 ∧
    duplicatesWarning c7Table =
      some "Warning: there are 1 duplicate rows in the dataset." := by
  refine ⟨dupCount_eq t, ?_, fun s hs => ?_, by decide, rfl⟩
  · rw [duplicatesWarning]
    split <;> simp_all
  · rw [duplicatesWarning] at hs
    split at hs
    · cases hs; rfl
    · cases hs

/-- Instantiation of `C7` at the two-identical-row table. -/
theorem C7_witness : (duplicatesWarning c7Table).isSome :=
  (C7 c7Table).2.1.mpr (by decide)

/-! ### C8 -/

/-- C8: date columns are rewritten valuewise to `MM/DD/YYYY` text (the
column's dtype becoming textual, nulls staying null) and non-date columns
are untouched; concretely 2024-03-05 becomes "03/05/2024". -/
theorem C8 (c : Column) :
    (c.dtype ≠ Dtype.date → formatDateColumn c = c) ∧
    (c.dtype = Dtype.date → formatDateColumn c =
      ⟨c.name, Dtype.text, c.vals.map formatDateValue⟩) ∧
    (∀ d : Date, formatDateValue (Value.date d) = Value.text (formatDate d)) ∧
    formatDateValue Value.null = Value.null ∧
    formatDateColumn ⟨"d", Dtype.date, [Value.date ⟨2024, 3, 5⟩]⟩ =
      ⟨"d", Dtype.text, [Value.text "03/05/2024"]⟩ := by
  refine ⟨fun hc => ?_, fun hc => ?_, fun d => rfl, rfl, rfl⟩
  · simp [formatDateColumn, hc]
  · simp [formatDateColumn, hc]

/-- Instantiation of `C8` at an integer column. -/
theorem C8_witness :
    formatDateColumn ⟨"k", Dtype.int, [Value.int 1]⟩ =
      ⟨"k", Dtype.int, [Value.int 1]⟩ :=
  (C8 _).1 (by decide)

/-! ### C9 -/

/-- The per-column value-list lengths of a table. -/
def colLengths (t : Table) : List Nat := t.map fun c => c.vals.length

lemma colLengths_applyException (cols : Table) (e : String × String) :
    colLengths (applyException cols e) = colLengths cols := by
  rw [applyException]
  split
  · rw [colLengths, colLengths, List.map_map]
    apply List.map_congr_left
    intro c _
    simp only [Function.comp_apply]
    split <;> rfl
  · rfl

lemma colLengths_foldl (es : List (String × String)) (cols : Table) :
    colLengths (es.foldl applyException cols) = colLengths cols := by
  induction es generalizing cols with
  | nil => rfl
  | cons e es ih => rw [List.foldl_cons, ih, colLengths_applyException]

lemma colLengths_formatColumns (rules : List (String × String)) (t : Table) :
    colLengths (formatColumns rules t) = colLengths t := by
  rw [formatColumns, colLengths_foldl, colLengths, colLengths, List.map_map]
  rfl

lemma colLengths_sanitize (t : Table) :
    colLengths (sanitizeTable t) = colLengths t := by
  rw [sanitizeTable, colLengths, colLengths, List.map_map]
  apply List.map_congr_left
  intro c _
  simp only [Function.comp_apply, sanitizeColumn]
  split <;> simp

lemma colLengths_formatDates (t : Table) :
    colLengths (formatDatesTable t) = colLengths t := by
  rw [formatDatesTable, colLengths, colLengths, List.map_map]
  apply List.map_congr_left
  intro c _
  simp only [Function.comp_apply, formatDateColumn]
  split <;> simp

/-- C9: the cleaned table returned by the pipeline has the same number of
columns as the input and every column keeps its value-list length (hence
the same row count). -/
theorem C9 (rules : List (String × String)) (t : Table) :
    ((analyze_and_clean_excel_file rules t).1).length = t.length ∧
    colLengths (analyze_and_clean_excel_file rules t).1 = colLengths t := by
  have hc : colLengths (analyze_and_clean_excel_file rules t).1 = colLengths t := by
    show colLengths (formatDatesTable (sanitizeTable (formatColumns rules t))) =
      colLengths t
    rw [colLengths_formatDates, colLengths_sanitize, colLengths_formatColumns]
  refine ⟨?_, hc⟩
  have := congrArg List.length hc
  simpa [colLengths] using this

/-! ### C10 -/

/-- The per-column distribution-plot titles can never collide with the
fixed report entry: the two strings differ at character 13. -/
lemma dist_title_ne (nm : String) :
    "Distribution plots for numerical columns" ≠ "Distribution of " ++ nm := by
  intro h
  have h13 : ("Distribution plots for numerical columns").data.get? 13 =
      ("Distribution of " ++ nm).data.get? 13 := by rw [h]
  have hl : ("Distribution of " ++ nm).data = "Distribution of ".data ++ nm.data := rfl
  rw [hl, List.get?_append (by decide)] at h13
  exact absurd h13 (by decide)

/-- C10: whenever the selection is non-empty the report's
distribution-plot entry is the fixed string, independent of the selected
columns; the per-column titles `Distribution of {c}` appear (in selection
order) only among the rendering requests; and no per-column title can
equal the report entry. -/
theorem C10 (rules : List (String × String)) (t : Table) :
    ((analyze_and_clean_excel_file rules t).2.1.dist_plots_title =
      if selectedColumns (cleanTable rules t) = [] then none
      else some "Distribution plots for numerical columns") ∧
    (selectedColumns (cleanTable rules t) ≠ [] →
      (analyze_and_clean_excel_file rules t).2.1.dist_plots_title =
        some "Distribution plots for numerical columns") ∧
    ((analyze_and_clean_excel_file rules t).2.2 =
      boxPlotCalls (cleanTable rules t) ++
        (selectedColumns (cleanTable rules t)).map fun c =>
          PlotCall.distPlot c.name ("Distribution of " ++ c.name)) ∧
    (∀ c ∈ selectedColumns (cleanTable rules t),
      PlotCall.distPlot c.name ("Distribution of " ++ c.name) ∈
        (analyze_and_clean_excel_file rules t).2.2) ∧
    ∀ nm : String, (analyze_and_clean_excel_file rules t).2.1.dist_plots_title ≠
      some ("Distribution of " ++ nm) := by
  have hd : formatDatesTable (sanitizeTable (formatColumns rules t)) =
      cleanTable rules t := rfl
  refine ⟨?_, fun h => ?_, ?_, fun c hc => ?_, fun nm h => ?_⟩
  · show distPlotsTitle (cleanTable rules t) = _
    rfl
  · show distPlotsTitle (cleanTable rules t) = _
    rw [distPlotsTitle, if_neg h]
  · show boxPlotCalls (cleanTable rules t) ++ distPlotCalls (cleanTable rules t) = _
    rfl
  · show _ ∈ boxPlotCalls (cleanTable rules t) ++ distPlotCalls (cleanTable rules t)
    refine List.mem_append_right _ ?_
    rw [distPlotCalls]
    exact List.mem_map_of_mem _ hc
  · revert h
    show distPlotsTitle (cleanTable rules t) ≠ _
    rw [distPlotsTitle]
    split
    · exact fun h => Option.noConfusion h
    · intro h
      exact dist_title_ne nm (Option.some.inj h)

/-- Instantiation of `C10` at a table with a non-empty selection. -/
theorem C10_witness :
    (analyze_and_clean_excel_file defaultExceptions [c5big]).2.1.dist_plots_title =
      some "Distribution plots for numerical columns" :=
  (C10 defaultExceptions [c5big]).2.1 (by decide)

end ExcelClean
